import Mathlib

/-!
Shallow embedding of
`packages/fluentui/accessibility/src/behaviors/Tree/treeItemBehavior.ts`.

The source file exports a single pure function `treeItemBehavior` mapping a
props record to a declarative behavior definition: ARIA-like attributes for
the root slot, keyboard actions for the root slot, and a delegated child
behavior for the title slot.  JavaScript object-literal semantics with
conditional spread is modelled by ordered association lists where, for a
duplicated key, the last occurrence wins (the `objGet` lookup below).
-/

namespace TreeItem

/-- Keys referenced by the behavior via the external keyboard-key package
(`keyboardKey.Enter`, `SpacebarKey`, `keyboardKey.ArrowLeft`,
`keyboardKey.ArrowRight`, `keyboardKey[star]`), modelled as opaque distinct
constants. -/
inductive Key where
  | enter
  | spacebar
  | arrowLeft
  | arrowRight
  | star
  deriving DecidableEq, Repr

/-- One key combination, mirroring the objects in `keyCombinations` lists. -/
structure KeyCombination where
  keyCode : Key
  deriving DecidableEq, Repr

/-- A key action value: the list of key combinations that trigger it. -/
structure KeyAction where
  keyCombinations : List KeyCombination
  deriving DecidableEq, Repr

/-- JavaScript attribute values occurring in the definition: strings,
booleans, numbers, and `undefined`. -/
inductive AttrValue where
  | str (s : String)
  | bool (b : Bool)
  | num (n : Int)
  | undef
  deriving DecidableEq, Repr

/-- The props record of `treeItemBehavior`.  Every field is optional in the
source (`expanded?: boolean` and so on); `none` models an absent field. -/
structure TreeItemBehaviorProps where
  expanded : Option Bool := none
  level : Option Int := none
  index : Option Int := none
  hasSubtree : Option Bool := none
  treeSize : Option Int := none
  selectable : Option Bool := none
  selected : Option Bool := none
  deriving DecidableEq, Repr

/-- JavaScript truthiness of an optional boolean prop: `undefined` and
`false` are falsy, `true` is truthy. -/
def truthy (o : Option Bool) : Bool := o.getD false

/-- The JavaScript value of an optional boolean prop passed through as an
attribute value (`undefined` when absent). -/
def jsBool (o : Option Bool) : AttrValue :=
  match o with
  | none => AttrValue.undef
  | some b => AttrValue.bool b

/-- The JavaScript value of an optional numeric prop passed through as an
attribute value (`undefined` when absent). -/
def jsNum (o : Option Int) : AttrValue :=
  match o with
  | none => AttrValue.undef
  | some n => AttrValue.num n

/-- The focusability marker attribute name, imported by the source from
`../../attributes` (external to the file). -/
def IS_FOCUSABLE_ATTRIBUTE : String := "data-is-focusable"

/-- Direct translation of the source helper `isSubtreeExpanded`:
`!!(hasSubtree && expanded)`. -/
def isSubtreeExpanded (props : TreeItemBehaviorProps) : Bool :=
  truthy props.hasSubtree && truthy props.expanded

/-- Modelled from the spec: `treeTitleBehavior` is imported from
`./treeTitleBehavior`, a file of this repository that is not part of the
given source; the spec treats it as an opaque external collaborator that
`childBehaviors.title` delegates to unmodified. -/
inductive ChildBehavior where
  | treeTitleBehavior
  deriving DecidableEq, Repr

/-- The `attributes` field of the returned definition: one `root` slot. -/
structure AttributesSlots where
  root : List (String × AttrValue)
  deriving DecidableEq, Repr

/-- The `keyActions` field of the returned definition: one `root` slot. -/
structure KeyActionsSlots where
  root : List (String × KeyAction)
  deriving DecidableEq, Repr

/-- The `childBehaviors` field of the returned definition: one `title`
slot. -/
structure ChildBehaviorsSlots where
  title : ChildBehavior
  deriving DecidableEq, Repr

/-- The behavior definition returned by `treeItemBehavior`. -/
structure BehaviorDefinition where
  attributes : AttributesSlots
  keyActions : KeyActionsSlots
  childBehaviors : ChildBehaviorsSlots
  deriving DecidableEq, Repr

/-- JavaScript object-literal lookup over an ordered association list: when
a key occurs several times (conditional spread re-assigning it), the last
occurrence wins. -/
def objGet {α : Type} (entries : List (String × α)) (k : String) : Option α :=
  entries.foldl (fun acc e => if e.1 = k then some e.2 else acc) none

/-- Shallow embedding of the exported `treeItemBehavior` function.
`nodeEnv` models the ambient `process.env.NODE_ENV` read by the source; all
other structure follows the source literally, in source order. -/
def treeItemBehavior (nodeEnv : String) (props : TreeItemBehaviorProps) :
    BehaviorDefinition :=
  let baseRootAttributes : List (String × AttrValue) :=
    [("role", AttrValue.str "none")] ++
    (if truthy props.hasSubtree then
      [("aria-expanded", jsBool props.expanded),
       ("aria-selected",
         if truthy props.selectable then AttrValue.bool (props.selected.getD false)
         else AttrValue.undef),
       ("tabIndex", AttrValue.num (-1)),
       (IS_FOCUSABLE_ATTRIBUTE, AttrValue.bool true),
       ("role", AttrValue.str "treeitem"),
       ("aria-setsize", jsNum props.treeSize),
       ("aria-posinset", jsNum props.index),
       ("aria-level", jsNum props.level)]
     else [])
  let rootAttributes : List (String × AttrValue) :=
    if nodeEnv != "production" && !(truthy props.hasSubtree) then
      baseRootAttributes ++ [("data-aa-class", AttrValue.str "SingleTreeItem")]
    else baseRootAttributes
  let rootKeyActions : List (String × KeyAction) :=
    [("performClick", ⟨[⟨Key.enter⟩, ⟨Key.spacebar⟩]⟩)] ++
    (if isSubtreeExpanded props then
      [("collapse", ⟨[⟨Key.arrowLeft⟩]⟩),
       ("focusFirstChild", ⟨[⟨Key.arrowRight⟩]⟩),
       ("focusParent", ⟨[⟨Key.arrowLeft⟩]⟩)]
     else []) ++
    (if !(isSubtreeExpanded props) && truthy props.hasSubtree then
      [("expand", ⟨[⟨Key.arrowRight⟩]⟩),
       ("focusParent", ⟨[⟨Key.arrowLeft⟩]⟩)]
     else []) ++
    [("expandSiblings", ⟨[⟨Key.star⟩]⟩)] ++
    (if truthy props.selectable then
      [("performClick",
         ⟨if truthy props.hasSubtree then [⟨Key.enter⟩] else [⟨Key.spacebar⟩]⟩),
       ("performSelection", ⟨[⟨Key.spacebar⟩]⟩)]
     else [])
  { attributes := ⟨rootAttributes⟩,
    keyActions := ⟨rootKeyActions⟩,
    childBehaviors := ⟨ChildBehavior.treeTitleBehavior⟩ }

/-- Lookup of a root-slot attribute by name (last write wins). -/
def rootAttr (d : BehaviorDefinition) (k : String) : Option AttrValue :=
  objGet d.attributes.root k

/-- Lookup of a root-slot key action by name (last write wins). -/
def rootAction (d : BehaviorDefinition) (k : String) : Option KeyAction :=
  objGet d.keyActions.root k

end TreeItem

namespace TreeItem

/-- A truthy optional boolean prop is exactly `some true`. -/
theorem truthy_eq_true_iff (o : Option Bool) : truthy o = true ↔ o = some true := by
  cases o with
  | none => simp [truthy]
  | some b => cases b <;> simp [truthy]

/-- C7: for every build mode and every props, the returned definition
delegates the title slot, unmodified, to the external title behavior. -/
theorem treeItemBehavior_title_delegates (nodeEnv : String)
    (props : TreeItemBehaviorProps) :
    (treeItemBehavior nodeEnv props).childBehaviors.title =
      ChildBehavior.treeTitleBehavior := by
  rfl

/-- C8: the function is deterministic: for a fixed build mode, two calls on
structurally equal props return structurally equal definitions. -/
theorem treeItemBehavior_deterministic (nodeEnv : String)
    (p q : TreeItemBehaviorProps) (h : p = q) :
    treeItemBehavior nodeEnv p = treeItemBehavior nodeEnv q := by
  rw [h]

/-- Witness for C8 at a concrete input. -/
theorem treeItemBehavior_deterministic_witness :
    treeItemBehavior "production" { hasSubtree := some true } =
      treeItemBehavior "production" { hasSubtree := some true } :=
  treeItemBehavior_deterministic "production" { hasSubtree := some true }
    { hasSubtree := some true } rfl

/-- C9: the function is total: every build mode and every props value,
including the all-absent one, yields a behavior definition. -/
theorem treeItemBehavior_total (nodeEnv : String)
    (props : TreeItemBehaviorProps) :
    ∃ d : BehaviorDefinition, treeItemBehavior nodeEnv props = d :=
  ⟨treeItemBehavior nodeEnv props, rfl⟩

/-- C10: no definition ever carries both an `expand` and a `collapse` key
action on the root slot. -/
theorem treeItemBehavior_expand_collapse_exclusive (nodeEnv : String)
    (props : TreeItemBehaviorProps) :
    rootAction (treeItemBehavior nodeEnv props) "expand" = none ∨
      rootAction (treeItemBehavior nodeEnv props) "collapse" = none := by
  by_cases h : isSubtreeExpanded props = true
  · left
    by_cases hs : truthy props.selectable = true <;>
      simp [rootAction, treeItemBehavior, objGet, h, hs]
  · right
    simp only [Bool.not_eq_true] at h
    by_cases hs : truthy props.selectable = true <;>
    by_cases hh : truthy props.hasSubtree = true <;>
      simp [rootAction, treeItemBehavior, objGet, h, hs, hh]

end TreeItem

namespace TreeItem

/-- C2: when the item is selectable and has no subtree, `performClick` is
re-bound to Spacebar only, and `performSelection` is bound to Spacebar. -/
theorem treeItemBehavior_selectable_leaf (nodeEnv : String)
    (props : TreeItemBehaviorProps)
    (hs : truthy props.selectable = true)
    (hh : truthy props.hasSubtree = false) :
    rootAction (treeItemBehavior nodeEnv props) "performClick" =
        some ⟨[⟨Key.spacebar⟩]⟩ ∧
      rootAction (treeItemBehavior nodeEnv props) "performSelection" =
        some ⟨[⟨Key.spacebar⟩]⟩ := by
  have he : isSubtreeExpanded props = false := by
    simp [isSubtreeExpanded, hh]
  constructor <;> simp [rootAction, treeItemBehavior, objGet, hs, hh, he]

/-- Witness for C2 at the concrete props `selectable = true`. -/
theorem treeItemBehavior_selectable_leaf_witness :
    truthy (TreeItemBehaviorProps.selectable { selectable := some true }) = true ∧
      truthy (TreeItemBehaviorProps.hasSubtree { selectable := some true }) = false ∧
      rootAction (treeItemBehavior "production" { selectable := some true })
          "performClick" = some ⟨[⟨Key.spacebar⟩]⟩ ∧
      rootAction (treeItemBehavior "production" { selectable := some true })
          "performSelection" = some ⟨[⟨Key.spacebar⟩]⟩ :=
  ⟨rfl, rfl,
    treeItemBehavior_selectable_leaf "production" { selectable := some true }
      rfl rfl⟩

/-- C3: when the item is selectable and has a subtree, `performClick` is
bound to Enter only, `performSelection` to Spacebar, and the root attribute
`aria-selected` equals `selected || false`. -/
theorem treeItemBehavior_selectable_subtree (nodeEnv : String)
    (props : TreeItemBehaviorProps)
    (hs : truthy props.selectable = true)
    (hh : truthy props.hasSubtree = true) :
    rootAction (treeItemBehavior nodeEnv props) "performClick" =
        some ⟨[⟨Key.enter⟩]⟩ ∧
      rootAction (treeItemBehavior nodeEnv props) "performSelection" =
        some ⟨[⟨Key.spacebar⟩]⟩ ∧
      rootAttr (treeItemBehavior nodeEnv props) "aria-selected" =
        some (AttrValue.bool (props.selected.getD false)) := by
  refine ⟨?_, ?_, ?_⟩ <;>
  by_cases he : isSubtreeExpanded props = true <;>
    simp_all [rootAction, rootAttr, treeItemBehavior, objGet,
      IS_FOCUSABLE_ATTRIBUTE]

/-- Witness for C3 at the concrete props
`selectable = true, hasSubtree = true`. -/
theorem treeItemBehavior_selectable_subtree_witness :
    truthy (TreeItemBehaviorProps.selectable
        { selectable := some true, hasSubtree := some true }) = true ∧
      truthy (TreeItemBehaviorProps.hasSubtree
        { selectable := some true, hasSubtree := some true }) = true ∧
      rootAction (treeItemBehavior "production"
          { selectable := some true, hasSubtree := some true })
          "performClick" = some ⟨[⟨Key.enter⟩]⟩ ∧
      rootAction (treeItemBehavior "production"
          { selectable := some true, hasSubtree := some true })
          "performSelection" = some ⟨[⟨Key.spacebar⟩]⟩ ∧
      rootAttr (treeItemBehavior "production"
          { selectable := some true, hasSubtree := some true })
          "aria-selected" =
        some (AttrValue.bool (Option.getD
          (TreeItemBehaviorProps.selected
            { selectable := some true, hasSubtree := some true }) false)) :=
  ⟨rfl, rfl,
    treeItemBehavior_selectable_subtree "production"
      { selectable := some true, hasSubtree := some true } rfl rfl⟩

end TreeItem

namespace TreeItem

/-- C4: when the item has a subtree, the root attributes carry
`aria-expanded = expanded`, `aria-selected = selected || false` when
selectable else undefined, the focusability marker set to true,
`role = "treeitem"`, `aria-setsize = treeSize`, `aria-posinset = index`,
`aria-level = level`, and `tabIndex = -1`. -/
theorem treeItemBehavior_subtree_attributes (nodeEnv : String)
    (props : TreeItemBehaviorProps)
    (hh : truthy props.hasSubtree = true) :
    rootAttr (treeItemBehavior nodeEnv props) "aria-expanded" =
        some (jsBool props.expanded) ∧
      rootAttr (treeItemBehavior nodeEnv props) "aria-selected" =
        some (if truthy props.selectable then
          AttrValue.bool (props.selected.getD false) else AttrValue.undef) ∧
      rootAttr (treeItemBehavior nodeEnv props) IS_FOCUSABLE_ATTRIBUTE =
        some (AttrValue.bool true) ∧
      rootAttr (treeItemBehavior nodeEnv props) "role" =
        some (AttrValue.str "treeitem") ∧
      rootAttr (treeItemBehavior nodeEnv props) "aria-setsize" =
        some (jsNum props.treeSize) ∧
      rootAttr (treeItemBehavior nodeEnv props) "aria-posinset" =
        some (jsNum props.index) ∧
      rootAttr (treeItemBehavior nodeEnv props) "aria-level" =
        some (jsNum props.level) ∧
      rootAttr (treeItemBehavior nodeEnv props) "tabIndex" =
        some (AttrValue.num (-1)) := by
  refine ⟨?_, ?_, ?_, ?_, ?_, ?_, ?_, ?_⟩ <;>
    simp [rootAttr, treeItemBehavior, objGet, IS_FOCUSABLE_ATTRIBUTE, hh]

/-- Witness for C4 at the concrete props
`hasSubtree = true, expanded = true, selectable = true, selected = true,
treeSize = 3, index = 2, level = 1`. -/
theorem treeItemBehavior_subtree_attributes_witness :
    truthy (TreeItemBehaviorProps.hasSubtree
        { expanded := some true, level := some 1, index := some 2,
          hasSubtree := some true, treeSize := some 3,
          selectable := some true, selected := some true }) = true ∧
      rootAttr (treeItemBehavior "production"
          { expanded := some true, level := some 1, index := some 2,
            hasSubtree := some true, treeSize := some 3,
            selectable := some true, selected := some true })
          "aria-expanded" = some (jsBool (some true)) ∧
      rootAttr (treeItemBehavior "production"
          { expanded := some true, level := some 1, index := some 2,
            hasSubtree := some true, treeSize := some 3,
            selectable := some true, selected := some true })
          "aria-selected" =
        some (if truthy (some true) then
          AttrValue.bool (Option.getD (some true) false) else AttrValue.undef) ∧
      rootAttr (treeItemBehavior "production"
          { expanded := some true, level := some 1, index := some 2,
            hasSubtree := some true, treeSize := some 3,
            selectable := some true, selected := some true })
          IS_FOCUSABLE_ATTRIBUTE = some (AttrValue.bool true) ∧
      rootAttr (treeItemBehavior "production"
          { expanded := some true, level := some 1, index := some 2,
            hasSubtree := some true, treeSize := some 3,
            selectable := some true, selected := some true })
          "role" = some (AttrValue.str "treeitem") ∧
      rootAttr (treeItemBehavior "production"
          { expanded := some true, level := some 1, index := some 2,
            hasSubtree := some true, treeSize := some 3,
            selectable := some true, selected := some true })
          "aria-setsize" = some (jsNum (some 3)) ∧
      rootAttr (treeItemBehavior "production"
          { expanded := some true, level := some 1, index := some 2,
            hasSubtree := some true, treeSize := some 3,
            selectable := some true, selected := some true })
          "aria-posinset" = some (jsNum (some 2)) ∧
      rootAttr (treeItemBehavior "production"
          { expanded := some true, level := some 1, index := some 2,
            hasSubtree := some true, treeSize := some 3,
            selectable := some true, selected := some true })
          "aria-level" = some (jsNum (some 1)) ∧
      rootAttr (treeItemBehavior "production"
          { expanded := some true, level := some 1, index := some 2,
            hasSubtree := some true, treeSize := some 3,
            selectable := some true, selected := some true })
          "tabIndex" = some (AttrValue.num (-1)) :=
  ⟨rfl,
    treeItemBehavior_subtree_attributes "production"
      { expanded := some true, level := some 1, index := some 2,
        hasSubtree := some true, treeSize := some 3,
        selectable := some true, selected := some true } rfl⟩

end TreeItem

namespace TreeItem

/-- C5: when the item has an expanded subtree, the root carries
`role = "treeitem"` and `aria-expanded = true`, and the root key actions
bind `collapse` to ArrowLeft, `focusFirstChild` to ArrowRight and
`focusParent` to ArrowLeft, with no `expand` action. -/
theorem treeItemBehavior_expanded_subtree (nodeEnv : String)
    (props : TreeItemBehaviorProps)
    (hh : truthy props.hasSubtree = true)
    (hx : truthy props.expanded = true) :
    rootAttr (treeItemBehavior nodeEnv props) "role" =
        some (AttrValue.str "treeitem") ∧
      rootAttr (treeItemBehavior nodeEnv props) "aria-expanded" =
        some (AttrValue.bool true) ∧
      rootAction (treeItemBehavior nodeEnv props) "collapse" =
        some ⟨[⟨Key.arrowLeft⟩]⟩ ∧
      rootAction (treeItemBehavior nodeEnv props) "focusFirstChild" =
        some ⟨[⟨Key.arrowRight⟩]⟩ ∧
      rootAction (treeItemBehavior nodeEnv props) "focusParent" =
        some ⟨[⟨Key.arrowLeft⟩]⟩ ∧
      rootAction (treeItemBehavior nodeEnv props) "expand" = none := by
  have he : isSubtreeExpanded props = true := by
    simp [isSubtreeExpanded, hh, hx]
  have hxv : props.expanded = some true := (truthy_eq_true_iff _).mp hx
  refine ⟨?_, ?_, ?_, ?_, ?_, ?_⟩ <;>
  by_cases hs : truthy props.selectable = true <;>
    simp [rootAttr, rootAction, treeItemBehavior, objGet,
      IS_FOCUSABLE_ATTRIBUTE, jsBool, hh, hs, he, hxv]

/-- Witness for C5 at the concrete props
`hasSubtree = true, expanded = true`. -/
theorem treeItemBehavior_expanded_subtree_witness :
    truthy (TreeItemBehaviorProps.hasSubtree
        { expanded := some true, hasSubtree := some true }) = true ∧
      truthy (TreeItemBehaviorProps.expanded
        { expanded := some true, hasSubtree := some true }) = true ∧
      rootAttr (treeItemBehavior "production"
          { expanded := some true, hasSubtree := some true }) "role" =
        some (AttrValue.str "treeitem") ∧
      rootAttr (treeItemBehavior "production"
          { expanded := some true, hasSubtree := some true }) "aria-expanded" =
        some (AttrValue.bool true) ∧
      rootAction (treeItemBehavior "production"
          { expanded := some true, hasSubtree := some true }) "collapse" =
        some ⟨[⟨Key.arrowLeft⟩]⟩ ∧
      rootAction (treeItemBehavior "production"
          { expanded := some true, hasSubtree := some true }) "focusFirstChild" =
        some ⟨[⟨Key.arrowRight⟩]⟩ ∧
      rootAction (treeItemBehavior "production"
          { expanded := some true, hasSubtree := some true }) "focusParent" =
        some ⟨[⟨Key.arrowLeft⟩]⟩ ∧
      rootAction (treeItemBehavior "production"
          { expanded := some true, hasSubtree := some true }) "expand" = none :=
  ⟨rfl, rfl,
    treeItemBehavior_expanded_subtree "production"
      { expanded := some true, hasSubtree := some true } rfl rfl⟩

/-- C6: when the item has a closed subtree, the root key actions bind
`expand` to ArrowRight and `focusParent` to ArrowLeft, with no `collapse`
and no `focusFirstChild` action. -/
theorem treeItemBehavior_closed_subtree (nodeEnv : String)
    (props : TreeItemBehaviorProps)
    (hh : truthy props.hasSubtree = true)
    (hx : truthy props.expanded = false) :
    rootAction (treeItemBehavior nodeEnv props) "expand" =
        some ⟨[⟨Key.arrowRight⟩]⟩ ∧
      rootAction (treeItemBehavior nodeEnv props) "focusParent" =
        some ⟨[⟨Key.arrowLeft⟩]⟩ ∧
      rootAction (treeItemBehavior nodeEnv props) "collapse" = none ∧
      rootAction (treeItemBehavior nodeEnv props) "focusFirstChild" = none := by
  have he : isSubtreeExpanded props = false := by
    simp [isSubtreeExpanded, hh, hx]
  refine ⟨?_, ?_, ?_, ?_⟩ <;>
  by_cases hs : truthy props.selectable = true <;>
    simp [rootAction, treeItemBehavior, objGet, hh, hs, he]

/-- Witness for C6 at the concrete props
`hasSubtree = true, expanded = false`. -/
theorem treeItemBehavior_closed_subtree_witness :
    truthy (TreeItemBehaviorProps.hasSubtree
        { expanded := some false, hasSubtree := some true }) = true ∧
      truthy (TreeItemBehaviorProps.expanded
        { expanded := some false, hasSubtree := some true }) = false ∧
      rootAction (treeItemBehavior "production"
          { expanded := some false, hasSubtree := some true }) "expand" =
        some ⟨[⟨Key.arrowRight⟩]⟩ ∧
      rootAction (treeItemBehavior "production"
          { expanded := some false, hasSubtree := some true }) "focusParent" =
        some ⟨[⟨Key.arrowLeft⟩]⟩ ∧
      rootAction (treeItemBehavior "production"
          { expanded := some false, hasSubtree := some true }) "collapse" =
        none ∧
      rootAction (treeItemBehavior "production"
          { expanded := some false, hasSubtree := some true }) "focusFirstChild" =
        none :=
  ⟨rfl, rfl,
    treeItemBehavior_closed_subtree "production"
      { expanded := some false, hasSubtree := some true } rfl rfl⟩

end TreeItem

namespace TreeItem

/-- C1 counterexample: the claim as stated is false.  At
`hasSubtree = false, selectable = true` the later conditional spread
re-binds `performClick` to Spacebar only, so it is not bound to both Enter
and Spacebar. -/
theorem treeItemBehavior_leaf_counterexample :
    ¬ ∀ (nodeEnv : String) (props : TreeItemBehaviorProps),
        truthy props.hasSubtree = false →
        ((treeItemBehavior nodeEnv props).attributes.root =
            [("role", AttrValue.str "none")] ++
            (if nodeEnv != "production" then
              [("data-aa-class", AttrValue.str "SingleTreeItem")] else []) ∧
          rootAction (treeItemBehavior nodeEnv props) "performClick" =
            some ⟨[⟨Key.enter⟩, ⟨Key.spacebar⟩]⟩ ∧
          rootAction (treeItemBehavior nodeEnv props) "expandSiblings" =
            some ⟨[⟨Key.star⟩]⟩ ∧
          rootAction (treeItemBehavior nodeEnv props) "expand" = none ∧
          rootAction (treeItemBehavior nodeEnv props) "collapse" = none ∧
          rootAction (treeItemBehavior nodeEnv props) "focusParent" = none ∧
          rootAction (treeItemBehavior nodeEnv props) "focusFirstChild" =
            none) := by
  intro h
  have hc :=
    h "production" { hasSubtree := some false, selectable := some true } rfl
  exact absurd hc.2.1 (by decide)

/-- C1 amended: when the item has no subtree, the root attributes are
exactly `role = "none"` (plus the diagnostic attribute outside production),
`expandSiblings` is bound to the wildcard key, no
expand/collapse/focusParent/focusFirstChild action exists, and
`performClick` is bound to both Enter and Spacebar provided the item is not
selectable. -/
theorem treeItemBehavior_leaf (nodeEnv : String)
    (props : TreeItemBehaviorProps)
    (hh : truthy props.hasSubtree = false) :
    (treeItemBehavior nodeEnv props).attributes.root =
        [("role", AttrValue.str "none")] ++
        (if nodeEnv != "production" then
          [("data-aa-class", AttrValue.str "SingleTreeItem")] else []) ∧
      (truthy props.selectable = false →
        rootAction (treeItemBehavior nodeEnv props) "performClick" =
          some ⟨[⟨Key.enter⟩, ⟨Key.spacebar⟩]⟩) ∧
      rootAction (treeItemBehavior nodeEnv props) "expandSiblings" =
        some ⟨[⟨Key.star⟩]⟩ ∧
      rootAction (treeItemBehavior nodeEnv props) "expand" = none ∧
      rootAction (treeItemBehavior nodeEnv props) "collapse" = none ∧
      rootAction (treeItemBehavior nodeEnv props) "focusParent" = none ∧
      rootAction (treeItemBehavior nodeEnv props) "focusFirstChild" =
        none := by
  have he : isSubtreeExpanded props = false := by
    simp [isSubtreeExpanded, hh]
  refine ⟨?_, ?_, ?_, ?_, ?_, ?_, ?_⟩ <;>
  by_cases hs : truthy props.selectable = true <;>
  by_cases hp : nodeEnv = "production" <;>
    simp [rootAction, treeItemBehavior, objGet, hh, hs, he, hp]

/-- Witness for the amended C1 at the all-absent props in a non-production
build mode. -/
theorem treeItemBehavior_leaf_witness :
    truthy (TreeItemBehaviorProps.hasSubtree {}) = false ∧
      ((treeItemBehavior "development" {}).attributes.root =
          [("role", AttrValue.str "none")] ++
          (if "development" != "production" then
            [("data-aa-class", AttrValue.str "SingleTreeItem")] else []) ∧
        (truthy (TreeItemBehaviorProps.selectable
            ({} : TreeItemBehaviorProps)) = false →
          rootAction (treeItemBehavior "development" {}) "performClick" =
            some ⟨[⟨Key.enter⟩, ⟨Key.spacebar⟩]⟩) ∧
        rootAction (treeItemBehavior "development" {}) "expandSiblings" =
          some ⟨[⟨Key.star⟩]⟩ ∧
        rootAction (treeItemBehavior "development" {}) "expand" = none ∧
        rootAction (treeItemBehavior "development" {}) "collapse" = none ∧
        rootAction (treeItemBehavior "development" {}) "focusParent" = none ∧
        rootAction (treeItemBehavior "development" {}) "focusFirstChild" =
          none) :=
  ⟨rfl, treeItemBehavior_leaf "development" {} rfl⟩

end TreeItem
